import Mathlib

/-
Verification of the ZConfig schema-description objects (info.py).

The Python classes are embedded shallowly:

* occurrence bounds (`None`, a finite integer, the `Unbounded` sentinel)
  become the inductive `Occurs`, and the Python 2 comparison operators
  used by the source become the boolean `occLt`;
* exceptions become the error type `PyErr`, and every fallible method
  returns `Except PyErr _`;
* mutable objects (`KeyInfo`, `SectionType`) become structures, and each
  mutating method returns the updated structure;
* the object graph of section types is represented name-keyed: a
  `SectionInfo.sectiontype` reference is either a concrete type name or
  an inline group; a heap `List (String × SectionTypeData)` maps names of
  concrete section types to their data.  (In Python a reference is an
  object pointer; since registered type names are unique, naming types by
  their `name` attribute is faithful for the states reachable through the
  schema-building API.)
-/

namespace ZConfigInfo

/-- Occurrence bound of a key or section: Python `None`, a finite integer,
or the `Unbounded` sentinel object of info.py. -/
inductive Occurs where
  | none
  | fin (n : Int)
  | unbounded
deriving DecidableEq

/-- Python 2 comparison `a < b` for the operand mix that info.py uses:
`None` compares below every integer (CPython 2 behaviour), and the
`UnboundedThing` sentinel's `__lt__` always returns `False` while its
`__gt__` always returns `True` (info.py lines 26-47). -/
def occLt : Occurs → Occurs → Bool
  | Occurs.none, Occurs.none => false
  | Occurs.none, _ => true
  | _, Occurs.none => false
  | .unbounded, _ => false
  | .fin a, .fin b => a < b
  | .fin _, .unbounded => true

/-- Python `maxOccurs > 1` as used throughout info.py. -/
def gtOne (m : Occurs) : Bool := occLt (.fin 1) m

/-- Python `maxOccurs < 1` as used in `BaseInfo.__init__`. -/
def ltOne (m : Occurs) : Bool := occLt m (.fin 1)

/-- Exceptions that the embedded code can raise.  `schemaError` and
`configurationError` are `ZConfig.SchemaError` and
`ZConfig.ConfigurationError`; `valueError`, `attributeError` and
`assertionError` are the plain Python exceptions that the source can hit
(`list.remove` on a missing element, attribute access on an object that
lacks it, a failing `assert`).  `modelFuel` and `modelDanglingRef` are
artifacts of the embedding only: `modelFuel` signals exhaustion of the
fuel used for the worklist loop of `getrequiredtypes`, `modelDanglingRef`
signals a section-type name that is not in the heap; neither corresponds
to a reachable Python behaviour, and no theorem below relies on them. -/
inductive PyErr where
  | schemaError (msg : String)
  | configurationError (msg : String)
  | valueError
  | attributeError
  | assertionError
  | modelFuel
  | modelDanglingRef
deriving DecidableEq

/-- Python 2 `repr` of a short string as used in the error messages
(backquotes in the source), for names without quotes or escapes. -/
def pyrepr (s : String) : String := "\x27" ++ s ++ "\x27"

/-- Boolean test that an `Except` result is a success. -/
def isOkE {α : Type} : Except PyErr α → Bool
  | .ok _ => true
  | .error _ => false

/-- Modelled from the spec: the exception hierarchy of the ZConfig package
(`ZConfig/__init__.py` is not under src/).  There `SchemaError` is a
subclass of `ConfigurationError`, which is what the spec's resolveChild
steps require: a failed group-subtype lookup (a `SchemaError`) is caught
by the `except ZConfig.ConfigurationError` handlers in
`SectionType.getsectionindex`, so that scanning can continue past a
group slot that lacks the requested subtype. -/
def catchConfig : PyErr → Bool
  | .schemaError _ => true
  | .configurationError _ => true
  | _ => false

/-- Source position `(lineno, colno, url)` attached to a value. -/
abbrev Pos := Nat × Nat × String

/-- ValueInfo: a raw value plus its source position (info.py lines 51-61). -/
structure ValueInfo where
  value : String
  position : Pos
deriving DecidableEq

/-- The `_default` slot of a `KeyInfo`: Python `None`, a single
`ValueInfo`, or a list of `ValueInfo` (for `maxOccurs > 1`).  The same
type also serves as the result of `getdefault`, where `multi []` is the
Python empty list. -/
inductive KDefault where
  | noneV
  | single (v : ValueInfo)
  | multi (l : List ValueInfo)
deriving DecidableEq

/-- The validation performed by `BaseInfo.__init__` (info.py lines 71-79),
kept exactly as written in the source: the `minOccurs`/`maxOccurs`
consistency test is nested under the branch in which `maxOccurs < 1` has
already raised, so it can never fire. -/
def baseInfoCheck (minOccurs maxOccurs : Occurs) : Except PyErr Unit :=
  if maxOccurs ≠ Occurs.none ∧ ltOne maxOccurs = true then
    if ltOne maxOccurs = true then
      .error (.schemaError ("maxOccurs must be at least 1"))
    else if minOccurs ≠ Occurs.none ∧ occLt minOccurs maxOccurs = true then
      .error (.schemaError ("minOccurs must be at least maxOccurs"))
    else .ok ()
  else .ok ()

/-- KeyInfo: a key declaration with its mutable default-accumulation
state (info.py lines 101-140).  `attr` is the source's `attribute` slot
(`attribute` is a Lean keyword). -/
structure KeyInfo where
  name : String
  datatype : Option String
  minOccurs : Occurs
  maxOccurs : Occurs
  handler : Option String
  attr : String
  finished : Bool
  default : KDefault
deriving DecidableEq

/-- KeyInfo.__init__ (info.py lines 102-108): asserts `minOccurs` is not
`None`, runs the `BaseInfo` validation, and starts unfinished with no
default. -/
def keyInfoInit (name : String) (datatype : Option String)
    (minOccurs maxOccurs : Occurs) (handler : Option String)
    (attr : String) : Except PyErr KeyInfo :=
  if minOccurs = Occurs.none then .error .assertionError
  else
    match baseInfoCheck minOccurs maxOccurs with
    | .error e => .error e
    | .ok _ => .ok ⟨name, datatype, minOccurs, maxOccurs, handler, attr, false, .noneV⟩

/-- KeyInfo.finish (info.py lines 110-114). -/
def KeyInfo.finish (self : KeyInfo) : Except PyErr KeyInfo :=
  if self.finished then
    .error (.schemaError ("cannot finish KeyInfo more than once"))
  else .ok { self with finished := true }

/-- KeyInfo.adddefault (info.py lines 116-130).  For a repeatable key a
`single` default would hit `self._default.append(value)` on a
non-list, an `AttributeError` in Python; that state is unreachable since
`maxOccurs` never changes. -/
def KeyInfo.adddefault (self : KeyInfo) (value : String) (position : Pos) :
    Except PyErr KeyInfo :=
  if self.finished then
    .error (.schemaError ("cannot add default values to finished KeyInfo"))
  else
    let v : ValueInfo := ⟨value, position⟩
    if gtOne self.maxOccurs then
      match self.default with
      | .noneV => .ok { self with default := .multi [v] }
      | .multi l => .ok { self with default := .multi (l ++ [v]) }
      | .single _ => .error .attributeError
    else
      match self.default with
      | .noneV => .ok { self with default := .single v }
      | _ => .error (.schemaError
          ("cannot set more than one default to key with maxOccurs == 1"))

/-- KeyInfo.getdefault (info.py lines 132-140).  The message is the
concatenation of the two source string literals. -/
def KeyInfo.getdefault (self : KeyInfo) : Except PyErr KDefault :=
  if self.finished = false then
    .error (.schemaError
      ("cannot get default value of key before KeyInfo has been completely initialized"))
  else if self.default = KDefault.noneV ∧ gtOne self.maxOccurs = true then
    .ok (.multi [])
  else .ok self.default

/-- Sequence of `adddefault` calls, stopping at the first failure. -/
def addDefaults : KeyInfo → List (String × Pos) → Except PyErr KeyInfo
  | k, [] => .ok k
  | k, vp :: vs =>
    match KeyInfo.adddefault k vp.1 vp.2 with
    | .ok k' => addDefaults k' vs
    | .error e => .error e

/-- First-match association-list lookup, the model of Python dict
lookup (registered names are unique, so first-match is exact). -/
def lookupA {A : Type} : List (String × A) → String → Option A
  | [], _ => Option.none
  | (k, v) :: m, k' => if k = k' then some v else lookupA m k'

/-- GroupType (info.py lines 200-222): a named union of section types.
Each `_subtypes` entry maps a registration key to the referenced
subtype's own `name` (the name-keyed model of the object reference;
`addsubtype` makes key and name coincide). -/
structure GroupType where
  name : String
  subtypes : List (String × String)
deriving DecidableEq

/-- GroupType.addsubtype (info.py lines 205-206): registers under the
subtype's own name, silently shadowing any previous entry (dict
assignment). -/
def GroupType.addsubtype (self : GroupType) (tname : String) : GroupType :=
  { self with subtypes := (tname, tname) :: self.subtypes }

/-- GroupType.getsubtype (info.py lines 208-213): raises
`ZConfig.SchemaError` when the name is absent. -/
def GroupType.getsubtype (self : GroupType) (name : String) : Except PyErr String :=
  match lookupA self.subtypes name with
  | some t => .ok t
  | Option.none => .error (.schemaError
      ("no subtype " ++ pyrepr name ++ " in group " ++ pyrepr self.name))

/-- Reference from a `SectionInfo` to its section type: either a concrete
`SectionType` (named into the heap) or a `GroupType`. -/
inductive SecTypeRef where
  | concrete (name : String)
  | group (g : GroupType)
deriving DecidableEq

/-- The `name` attribute of the referenced type. -/
def refName : SecTypeRef → String
  | .concrete n => n
  | .group g => g.name

/-- The `istypegroup()` marker method on the referenced type. -/
def istypegroupRef : SecTypeRef → Bool
  | .concrete _ => false
  | .group _ => true

/-- SectionInfo (info.py lines 143-197): a section declaration.  `attr`
is the source's `attribute` slot. -/
structure SecData where
  name : String
  sectiontype : SecTypeRef
  minOccurs : Occurs
  maxOccurs : Occurs
  handler : Option String
  attr : String
  datatype : Option String
deriving DecidableEq

/-- SectionInfo.__init__ (info.py lines 144-169).  `stDatatype` stands
for `sectiontype.datatype` of a concrete referenced type (the name-keyed
reference does not carry it). -/
def sectionInfoInit (name : String) (sectiontype : SecTypeRef)
    (stDatatype : Option String) (minOccurs maxOccurs : Occurs)
    (handler : Option String) (attr : String) : Except PyErr SecData :=
  if gtOne maxOccurs then
    if ¬ (name = "*" ∨ name = "+") then
      .error (.schemaError
        ("sections which can occur more than once must use a name of \x27*\x27 or \x27+\x27"))
    else if attr = "" then
      .error (.schemaError
        ("sections which can occur more than once must specify a target attribute name"))
    else
      let datatype := if istypegroupRef sectiontype then Option.none else stDatatype
      match baseInfoCheck minOccurs maxOccurs with
      | .error e => .error e
      | .ok _ => .ok ⟨name, sectiontype, minOccurs, maxOccurs, handler, attr, datatype⟩
  else
    let datatype := if istypegroupRef sectiontype then Option.none else stDatatype
    match baseInfoCheck minOccurs maxOccurs with
    | .error e => .error e
    | .ok _ => .ok ⟨name, sectiontype, minOccurs, maxOccurs, handler, attr, datatype⟩

/-- SectionInfo.allowUnnamed (info.py lines 179-180). -/
def SecData.allowUnnamed (self : SecData) : Bool := self.name = "*"

/-- SectionInfo.isAllowedName (info.py lines 182-190), with the Python
truthiness idiom `name and True or False` spelled out. -/
def SecData.isAllowedName (self : SecData) (name : String) : Bool :=
  if name = "*" ∨ name = "+" then false
  else if self.name = "+" then ¬ (name = "")
  else if name = "" then self.name = "*"
  else name = self.name

/-- SectionInfo.getdefault (info.py lines 192-197): sections cannot have
defaults; the empty list for repeatable slots, `None` otherwise. -/
def SecData.getdefault (self : SecData) : Except PyErr KDefault :=
  if gtOne self.maxOccurs then .ok (.multi []) else .ok .noneV

/-- A child of a `SectionType`: a key or a section declaration. -/
inductive Child where
  | key (k : KeyInfo)
  | sec (s : SecData)
deriving DecidableEq

/-- The `issection()` marker method. -/
def Child.issection : Child → Bool
  | .key _ => false
  | .sec _ => true

/-- The `attribute` slot of a child. -/
def childAttr : Child → String
  | .key k => k.attr
  | .sec s => s.attr

/-- SectionType (info.py lines 224-239): the ordered children plus the
two index maps.  The shared `registry`/`_types` of the source live in
`SchemaST` below; `keytype`/`valuetype`/`datatype` are carried opaquely. -/
structure SectionTypeData where
  name : String
  keytype : Option String
  valuetype : Option String
  datatype : Option String
  handler : Option String
  children : List (String × Child)
  attrmap : List (String × Nat)
  keymap : List (String × Nat)
deriving DecidableEq

/-- SectionType.__init__ (info.py lines 225-239). -/
def mkSectionType (name : String) (keytype valuetype datatype : Option String) :
    SectionTypeData :=
  ⟨name, keytype, valuetype, datatype, Option.none, [], [], []⟩

/-- A `SectionTypeData` with just the given children, for stating
theorems about the matching algorithm. -/
def stOfChildren (cs : List (String × Child)) : SectionTypeData :=
  { mkSectionType ("") Option.none Option.none Option.none with children := cs }

/-- SectionType._add_child (info.py lines 257-271).  The map inserts are
conses; the duplicate guards ensure the key being added is absent, so a
cons is lookup-equivalent to the Python dict assignment. -/
def SectionTypeData.add_child (self : SectionTypeData) (key : String) (info : Child) :
    Except PyErr SectionTypeData :=
  if key = "" ∧ childAttr info = "" then .error .assertionError
  else if key ≠ "" ∧ (lookupA self.keymap key).isSome then
    .error (.schemaError ("child name " ++ key ++ " already used"))
  else if childAttr info ≠ "" ∧ (lookupA self.attrmap (childAttr info)).isSome then
    .error (.schemaError ("child attribute name " ++ childAttr info ++ " already used"))
  else
    .ok { self with
          children := self.children ++ [(key, info)],
          attrmap := if childAttr info ≠ "" then
              (childAttr info, self.children.length) :: self.attrmap
            else self.attrmap,
          keymap := if key ≠ "" then
              (key, self.children.length) :: self.keymap
            else self.keymap }

/-- SectionType.addkey (info.py lines 273-274). -/
def SectionTypeData.addkey (self : SectionTypeData) (keyinfo : KeyInfo) :
    Except PyErr SectionTypeData :=
  self.add_child keyinfo.name (.key keyinfo)

/-- SectionType.addsection (info.py lines 276-278): asserts the key is
not a wildcard (unnamed slots are added under the empty key). -/
def SectionTypeData.addsection (self : SectionTypeData) (name : String) (sectinfo : SecData) :
    Except PyErr SectionTypeData :=
  if name = "*" ∨ name = "+" then .error .assertionError
  else self.add_child name (.sec sectinfo)

/-- SectionType.getinfo (info.py lines 280-288). -/
def SectionTypeData.getinfo (self : SectionTypeData) (key : String) : Except PyErr Child :=
  if key = "" then
    .error (.configurationError ("cannot match a key without a name"))
  else
    match lookupA self.keymap key with
    | Option.none => .error (.configurationError ("no key matching " ++ pyrepr key))
    | some index =>
      match self.children.get? index with
      | some c => .ok c.2
      | Option.none => .error .modelDanglingRef

/-- A schema-building operation on a `SectionType`. -/
inductive AddOp where
  | key (k : KeyInfo)
  | sect (name : String) (s : SecData)
deriving DecidableEq

/-- The `(key, info)` pair that a successful operation appends. -/
def opPair : AddOp → String × Child
  | .key k => (k.name, .key k)
  | .sect n s => (n, .sec s)

/-- Run one schema-building operation. -/
def applyOp (st : SectionTypeData) : AddOp → Except PyErr SectionTypeData
  | .key k => st.addkey k
  | .sect n s => st.addsection n s

/-- Run a sequence of schema-building operations, stopping at the first
failure. -/
def applyOps : SectionTypeData → List AddOp → Except PyErr SectionTypeData
  | st, [] => .ok st
  | st, op :: ops =>
    match applyOp st op with
    | .ok st' => applyOps st' ops
    | .error e => .error e

/-- One iteration of the loop body of `SectionType.getsectionindex`
(info.py lines 310-347) on the child `(key, info)` at position `index`:
`some r` means the loop returns or raises with `r`, `Option.none` means
it falls through to the next child.  The
`try/except ZConfig.ConfigurationError` blocks of the source are modelled
with `catchConfig`. -/
def gsiStep (type name : String) (index : Nat) : String × Child → Option (Except PyErr Nat)
  | (key, info) =>
    if key ≠ "" then
      if key = name then
        some (match info with
        | .key _ => .error (.configurationError
            ("section name " ++ key ++ " already in use for key"))
        | .sec s =>
          match s.sectiontype with
          | .group g =>
            match g.getsubtype type with
            | .ok stname =>
              if stname = type then .ok index
              else .error (.configurationError
                ("name " ++ pyrepr name ++ " must be used for a " ++ pyrepr stname ++ " section"))
            | .error e =>
              if catchConfig e then
                .error (.configurationError
                  ("section type " ++ pyrepr type ++ " not allowed for name " ++ pyrepr key))
              else .error e
          | .concrete cname =>
            if cname = type then .ok index
            else .error (.configurationError
              ("name " ++ pyrepr name ++ " must be used for a " ++ pyrepr cname ++ " section")))
      else Option.none
    else
      match info with
      | .key _ => some (.error .attributeError)
      | .sec s =>
        if refName s.sectiontype = type then
          some (if name = "" ∧ s.allowUnnamed = false then
            .error (.configurationError (pyrepr type ++ " sections must be named"))
          else .ok index)
        else
          match s.sectiontype with
          | .group g =>
            if g.name = type then
              some (.error (.configurationError ("cannot define section with a sectiongroup type")))
            else
              match g.getsubtype type with
              | .ok _ => some (.ok index)
              | .error e =>
                if catchConfig e then Option.none
                else some (.error e)
          | .concrete _ => Option.none

/-- The scan of `SectionType.getsectionindex` (info.py lines 308-348)
over the remaining children, carrying the running index. -/
def gsiAux (type name : String) : Nat → List (String × Child) → Except PyErr Nat
  | _, [] => .error (.configurationError ("no matching section defined"))
  | index, c :: rest =>
    match gsiStep type name index c with
    | some r => r
    | Option.none => gsiAux type name (index + 1) rest

/-- SectionType.getsectionindex (info.py lines 308-348). -/
def SectionTypeData.getsectionindex (self : SectionTypeData) (type name : String) :
    Except PyErr Nat :=
  gsiAux type name 0 self.children

/-- Does the scan of `getsectionindex` pass over this child and continue
with the next one, for the given instance type and name?  (Whether the
loop body continues does not depend on the running index.) -/
def childContinues (type name : String) (c : String × Child) : Bool :=
  (gsiStep type name 0 c).isNone

/-- One pass of `getrequiredtypes` over the children of the popped
section type: record and push every section child's type whose name is
not yet in the visited dict `d`.  The pushed references are returned in
encounter order (the caller reverses them onto the stack, matching
Python's `append`/`pop` LIFO). -/
def grtStep (d : List String) : List (String × Child) → List String × List SecTypeRef
  | [] => (d, [])
  | (_, .key _) :: cs => grtStep d cs
  | (_, .sec s) :: cs =>
    if refName s.sectiontype ∈ d then grtStep d cs
    else
      let r := grtStep (refName s.sectiontype :: d) cs
      (r.1, s.sectiontype :: r.2)

/-- The worklist loop of `SectionType.getrequiredtypes` (info.py lines
297-306).  Popping a group reference reads `_children` off a `GroupType`,
an `AttributeError` in Python.  Fuel only bounds the loop; `modelFuel`
is unreachable for the fuel supplied by `getrequiredtypes`. -/
def grtLoop (heap : List (String × SectionTypeData)) :
    Nat → List String → List SecTypeRef → Except PyErr (List String)
  | 0, _, _ => .error .modelFuel
  | _ + 1, d, [] => .ok d
  | fuel + 1, d, r :: stack =>
    match r with
    | .group _ => .error .attributeError
    | .concrete n =>
      match lookupA heap n with
      | Option.none => .error .modelDanglingRef
      | some st =>
        let p := grtStep d st.children
        grtLoop heap fuel p.1 (p.2.reverse ++ stack)

/-- SectionType.getrequiredtypes (info.py lines 293-306): the visited
dict starts with the type's own name when non-empty, and the stack
starts with the type itself (inlined here as its first `grtStep`). -/
def getrequiredtypes (heap : List (String × SectionTypeData))
    (self : SectionTypeData) : Except PyErr (List String) :=
  let d0 := if self.name ≠ "" then [self.name] else []
  let p := grtStep d0 self.children
  grtLoop heap (heap.length + 3) p.1 p.2.reverse

/-- SchemaType (info.py lines 361-392): the root section type plus the
registry of type names (`_types.keys()`, lowercased by `addtype`). -/
structure SchemaST where
  core : SectionTypeData
  registered : List String
  handler : Option String
  url : Option String
deriving DecidableEq

/-- Python `list.remove`: drop the first occurrence, `ValueError` if the
element is absent. -/
def removeOne : List String → String → Except PyErr (List String)
  | [], _ => .error .valueError
  | x :: xs, a =>
    if x = a then .ok xs
    else
      match removeOne xs a with
      | .ok ys => .ok (x :: ys)
      | .error e => .error e

/-- The removal loop of `getunusedtypes`. -/
def removeAll : List String → List String → Except PyErr (List String)
  | l, [] => .ok l
  | l, a :: as_ =>
    match removeOne l a with
    | .ok l' => removeAll l' as_
    | .error e => .error e

/-- SchemaType.getunusedtypes (info.py lines 385-392), including the
final conditional removal of the root's own name exactly as written
(it cannot fire, since a non-empty root name is in `getrequiredtypes`
and hence already removed, or the loop has raised `ValueError`). -/
def getunusedtypes (heap : List (String × SectionTypeData)) (self : SchemaST) :
    Except PyErr (List String) :=
  let alltypes := self.registered
  match getrequiredtypes heap self.core with
  | .error e => .error e
  | .ok reqtypes =>
    match removeAll alltypes reqtypes with
    | .error e => .error e
    | .ok alltypes' =>
      if self.core.name ≠ "" ∧ self.core.name ∈ alltypes' then
        removeOne alltypes' self.core.name
      else .ok alltypes'

/-! Theorems. -/

/-- C10: `SectionInfo.getdefault` is total and never fails, whatever the
descriptor's state: it returns the empty list when `maxOccurs > 1`
(a finite bound above 1 or `Unbounded`) and Python `None` otherwise
(a finite bound at most 1 or `None`). -/
theorem sectionGetdefaultTotal (s : SecData) :
    SecData.getdefault s = .ok (match s.maxOccurs with
      | .fin n => if 1 < n then KDefault.multi [] else KDefault.noneV
      | .unbounded => KDefault.multi []
      | Occurs.none => KDefault.noneV) := by
  cases h : s.maxOccurs <;> simp [SecData.getdefault, gtOne, occLt, h]
  split <;> rfl

/-- C3 (code bug): constructing a key or section descriptor with finite
bounds `minOccurs = 2 > 1 = maxOccurs` (or `3 > 1`) succeeds, although
both the spec and the dead `raise` in `BaseInfo.__init__` demand a schema
error — the consistency check is nested under the branch in which
`maxOccurs < 1` has already raised, so it can never fire.  The first
half of the claim does hold: a finite `maxOccurs < 1` fails. -/
theorem baseInfoMinMaxUnchecked :
    isOkE (keyInfoInit ("k") Option.none (.fin 2) (.fin 1) Option.none ("a")) = true ∧
    isOkE (sectionInfoInit ("s") (.concrete ("t")) Option.none (.fin 3) (.fin 1)
      Option.none ("a")) = true ∧
    keyInfoInit ("k") Option.none (.fin 1) (.fin 0) Option.none ("a") =
      .error (.schemaError ("maxOccurs must be at least 1")) ∧
    sectionInfoInit ("s") (.concrete ("t")) Option.none (.fin 0) (.fin 0)
      Option.none ("a") =
      .error (.schemaError ("maxOccurs must be at least 1")) :=
  ⟨rfl, rfl, rfl, rfl⟩

/-- C8 counterexample: a slot declared with the wildcard name `*` rejects
the non-empty candidate name "a" — `isAllowedName` falls through to the
exact-equality branch — contradicting the claim that a `*` slot returns
true for every candidate. -/
theorem isAllowedNameStarRejectsNamed :
    SecData.isAllowedName
      ⟨"*", .concrete ("t"), .fin 0, .unbounded, Option.none, "h", Option.none⟩
      ("a") = false :=
  rfl

/-- C8 amended: the candidates `*` and `+` are always rejected; a slot
declared `+` accepts exactly the other non-empty candidates; the empty
candidate is accepted exactly by a slot declared `*`; any other candidate
is accepted exactly when it equals the declared name — so a `*` slot
accepts only the empty candidate, and an empty declared name accepts no
candidate at all. -/
theorem isAllowedNameSpec (s : SecData) (n : String) :
    SecData.isAllowedName s n = true ↔
      (n ≠ "*" ∧ n ≠ "+" ∧
        ((s.name = "+" ∧ n ≠ "") ∨ (s.name = "*" ∧ n = "") ∨
          (s.name ≠ "+" ∧ s.name ≠ "*" ∧ n ≠ "" ∧ n = s.name))) := by
  unfold SecData.isAllowedName
  by_cases h1 : n = "*" ∨ n = "+"
  · simp only [h1, if_true]
    simp
    intro h2
    rcases h1 with h | h <;> simp [h] at h2 ⊢
  · push_neg at h1
    obtain ⟨hs, hp⟩ := h1
    by_cases h2 : s.name = "+"
    · by_cases h3 : n = "" <;>
        simp [hs, hp, h2, h3]
    · by_cases h3 : n = ""
      · by_cases h4 : s.name = "*" <;> simp [hs, hp, h2, h3, h4]
      · by_cases h4 : n = s.name
        · subst h4; simp [hs, hp, h2, h3]
        · simp [hs, hp, h2, h3, h4]

/-- C9 counterexample: looking up a missing subtype in a group raises
`ZConfig.SchemaError` (info.py line 212), not a ConfigurationError as the
claim asserts. -/
theorem getsubtypeMissingIsSchemaError :
    GroupType.getsubtype ⟨"g", []⟩ ("x") =
      .error (.schemaError ("no subtype " ++ pyrepr ("x") ++ " in group " ++ pyrepr ("g"))) ∧
    ∀ m, GroupType.getsubtype ⟨"g", []⟩ ("x") ≠ .error (.configurationError m) := by
  refine ⟨rfl, ?_⟩
  intro m h
  simp [GroupType.getsubtype, lookupA] at h

/-- C9 amended: `getsubtype` returns the registered subtype when the name
is present, and fails with a schema-definition error (ZConfig.SchemaError,
which in ZConfig's exception hierarchy is also caught by handlers for
ConfigurationError) saying there is no such subtype in the group when it
is absent. -/
theorem getsubtypeSpec (g1 g2 : GroupType) (n1 n2 t : String)
    (h1 : lookupA g1.subtypes n1 = some t)
    (h2 : lookupA g2.subtypes n2 = Option.none) :
    GroupType.getsubtype g1 n1 = .ok t ∧
    GroupType.getsubtype g2 n2 = .error (.schemaError
      ("no subtype " ++ pyrepr n2 ++ " in group " ++ pyrepr g2.name)) := by
  constructor
  · simp [GroupType.getsubtype, h1]
  · simp [GroupType.getsubtype, h2]

/-- Witness for the amended C9 at concrete groups. -/
theorem getsubtypeSpecWitness :
    (lookupA ([("a", "a")] : List (String × String)) ("a") = some ("a") ∧
     lookupA ([] : List (String × String)) ("x") = Option.none) ∧
    (GroupType.getsubtype ⟨"g1", [("a", "a")]⟩ ("a") = .ok ("a") ∧
     GroupType.getsubtype ⟨"g2", []⟩ ("x") = .error (.schemaError
       ("no subtype " ++ pyrepr ("x") ++ " in group " ++ pyrepr ("g2")))) :=
  ⟨⟨rfl, rfl⟩, getsubtypeSpec ⟨"g1", [("a", "a")]⟩ ⟨"g2", []⟩ ("a") ("x") ("a") rfl rfl⟩

/-- C1 (code bug): with a single unnamed `*` slot whose section type is
the TypeGroup g, resolving instance type "g" returns that slot (index 0)
instead of failing with "cannot define section with a sectiongroup type":
the name-equality branch at info.py line 331 matches the group's own name
first, so the raise at lines 338-340 is unreachable.  The two other
behaviours of the claim do hold, as the second and third conjuncts show:
a group slot lacking the requested subtype is skipped and a later child
can still match, and a scan in which no child matches fails with "no
matching section defined". -/
theorem getsectionindexGroupNameBug :
    (stOfChildren [("", .sec ⟨"*", .group ⟨"g", []⟩, .fin 0, .unbounded,
        Option.none, "h", Option.none⟩)]).getsectionindex ("g") ("n") = .ok 0 ∧
    (stOfChildren [("", .sec ⟨"*", .group ⟨"g", [("a", "a")]⟩, .fin 0, .unbounded,
        Option.none, "h", Option.none⟩),
      ("", .sec ⟨"*", .concrete ("t"), .fin 0, .unbounded,
        Option.none, "h2", Option.none⟩)]).getsectionindex ("t") ("") = .ok 1 ∧
    (stOfChildren [("", .sec ⟨"*", .group ⟨"g", []⟩, .fin 0, .unbounded,
        Option.none, "h", Option.none⟩)]).getsectionindex ("h") ("n") =
      .error (.configurationError ("no matching section defined")) :=
  ⟨rfl, rfl, rfl⟩

/-- C2 counterexample: the children are an unnamed `*` slot of concrete
type "t" followed by a key declared under the name "x"; the call with
instance type "t" and instance name "x" returns the earlier unnamed slot
(index 0), although the claim demands the failure "name already in use
for key" because the child declared under the exact name "x" is a key —
the scan is first-match-wins over all slot kinds, so the named child is
never reached. -/
theorem getsectionindexNamedPreempted :
    (stOfChildren [("", .sec ⟨"*", .concrete ("t"), .fin 0, .unbounded,
        Option.none, "h", Option.none⟩),
      ("x", .key ⟨"x", Option.none, .fin 0, .fin 1, Option.none, "x", false,
        .noneV⟩)]).getsectionindex ("t") ("x") = .ok 0 :=
  rfl

/-- The `ValueInfo` wrapped around one `adddefault` argument pair. -/
def mkVI (vp : String × Pos) : ValueInfo := ⟨vp.1, vp.2⟩

lemma addDefaults_multi (vs : List (String × Pos)) :
    ∀ (k : KeyInfo) (l : List ValueInfo), k.finished = false →
      gtOne k.maxOccurs = true → k.default = .multi l →
      addDefaults k vs = .ok { k with default := .multi (l ++ vs.map mkVI) } := by
  induction vs with
  | nil =>
    intro k l hf hg hd
    simp only [addDefaults, List.map_nil, List.append_nil, ← hd]
  | cons vp vs ih =>
    intro k l hf hg hd
    have step : KeyInfo.adddefault k vp.1 vp.2 =
        .ok { k with default := .multi (l ++ [⟨vp.1, vp.2⟩]) } := by
      simp [KeyInfo.adddefault, hf, hg, hd]
    rw [show addDefaults k (vp :: vs) =
        addDefaults { k with default := .multi (l ++ [⟨vp.1, vp.2⟩]) } vs from by
      simp only [addDefaults, step]]
    rw [ih { k with default := .multi (l ++ [⟨vp.1, vp.2⟩]) } (l ++ [⟨vp.1, vp.2⟩])
      hf hg rfl]
    simp [mkVI, List.append_assoc]

/-- C5: once a `KeyInfo` is finished, `adddefault` fails and a second
`finish` fails; a second default on a key with `maxOccurs ≤ 1` that
already has one fails; and on a repeatable key (`maxOccurs > 1`) a
sequence of N successful `adddefault` calls, followed by `finish`,
yields a default list of length N holding the values in call order. -/
theorem keyDefaultLifecycle (k1 k2 k3 : KeyInfo) (v : String) (p : Pos)
    (vs : List (String × Pos))
    (h1 : k1.finished = true)
    (h2 : gtOne k2.maxOccurs = false) (h2' : k2.default ≠ .noneV)
    (h3 : k3.finished = false) (h3' : gtOne k3.maxOccurs = true)
    (h3'' : k3.default = .noneV) :
    KeyInfo.adddefault k1 v p =
      .error (.schemaError ("cannot add default values to finished KeyInfo")) ∧
    KeyInfo.finish k1 =
      .error (.schemaError ("cannot finish KeyInfo more than once")) ∧
    isOkE (KeyInfo.adddefault k2 v p) = false ∧
    (∃ k' k'', addDefaults k3 vs = .ok k' ∧ KeyInfo.finish k' = .ok k'' ∧
      KeyInfo.getdefault k'' = .ok (.multi (vs.map mkVI))) := by
  refine ⟨by simp [KeyInfo.adddefault, h1], by simp [KeyInfo.finish, h1], ?_, ?_⟩
  · cases hf : k2.finished with
    | true => simp [KeyInfo.adddefault, hf, isOkE]
    | false =>
      cases hd : k2.default with
      | noneV => exact absurd hd h2'
      | single w => simp [KeyInfo.adddefault, hf, h2, hd, isOkE]
      | multi l => simp [KeyInfo.adddefault, hf, h2, hd, isOkE]
  · cases vs with
    | nil =>
      refine ⟨k3, { k3 with finished := true }, by simp [addDefaults], ?_, ?_⟩
      · simp [KeyInfo.finish, h3]
      · simp [KeyInfo.getdefault, h3'', h3']
    | cons vp vs =>
      have hstep : KeyInfo.adddefault k3 vp.1 vp.2 =
          .ok { k3 with default := .multi [⟨vp.1, vp.2⟩] } := by
        simp [KeyInfo.adddefault, h3, h3', h3'']
      have hrest := addDefaults_multi vs { k3 with default := .multi [⟨vp.1, vp.2⟩] }
        [⟨vp.1, vp.2⟩] h3 h3' rfl
      refine ⟨{ k3 with default := .multi ([⟨vp.1, vp.2⟩] ++ vs.map mkVI) },
        { k3 with finished := true, default := .multi ([⟨vp.1, vp.2⟩] ++ vs.map mkVI) },
        ?_, ?_, ?_⟩
      · simp only [addDefaults, hstep]
        exact hrest
      · simp [KeyInfo.finish, h3]
      · simp [KeyInfo.getdefault, mkVI]

/-- Witness for C5: a finished key, an unfinished singular key holding a
default, and a fresh repeatable key receiving two defaults. -/
theorem keyDefaultLifecycleWitness :
    ((⟨"k1", Option.none, .fin 1, .fin 1, Option.none, "a1", true, .noneV⟩ :
        KeyInfo).finished = true ∧
     gtOne (⟨"k2", Option.none, .fin 1, .fin 1, Option.none, "a2", false,
        .single ⟨"w", (1, 1, "u")⟩⟩ : KeyInfo).maxOccurs = false ∧
     (⟨"k2", Option.none, .fin 1, .fin 1, Option.none, "a2", false,
        .single ⟨"w", (1, 1, "u")⟩⟩ : KeyInfo).default ≠ .noneV ∧
     (⟨"k3", Option.none, .fin 1, .unbounded, Option.none, "a3", false, .noneV⟩ :
        KeyInfo).finished = false ∧
     gtOne (⟨"k3", Option.none, .fin 1, .unbounded, Option.none, "a3", false,
        .noneV⟩ : KeyInfo).maxOccurs = true ∧
     (⟨"k3", Option.none, .fin 1, .unbounded, Option.none, "a3", false,
        .noneV⟩ : KeyInfo).default = .noneV) ∧
    (KeyInfo.adddefault ⟨"k1", Option.none, .fin 1, .fin 1, Option.none, "a1", true, .noneV⟩
        ("v") (1, 1, "u") =
      .error (.schemaError ("cannot add default values to finished KeyInfo")) ∧
     KeyInfo.finish ⟨"k1", Option.none, .fin 1, .fin 1, Option.none, "a1", true, .noneV⟩ =
      .error (.schemaError ("cannot finish KeyInfo more than once")) ∧
     isOkE (KeyInfo.adddefault ⟨"k2", Option.none, .fin 1, .fin 1, Option.none, "a2",
        false, .single ⟨"w", (1, 1, "u")⟩⟩ ("v") (1, 1, "u")) = false ∧
     (∃ k' k'', addDefaults
        ⟨"k3", Option.none, .fin 1, .unbounded, Option.none, "a3", false, .noneV⟩
        [("v1", (1, 1, "u")), ("v2", (2, 1, "u"))] = .ok k' ∧
      KeyInfo.finish k' = .ok k'' ∧
      KeyInfo.getdefault k'' =
        .ok (.multi ([("v1", ((1 : Nat), (1 : Nat), "u")),
          ("v2", ((2 : Nat), (1 : Nat), "u"))].map mkVI)))) :=
  ⟨⟨rfl, rfl, by decide, rfl, rfl, rfl⟩,
   keyDefaultLifecycle
     ⟨"k1", Option.none, .fin 1, .fin 1, Option.none, "a1", true, .noneV⟩
     ⟨"k2", Option.none, .fin 1, .fin 1, Option.none, "a2", false, .single ⟨"w", (1, 1, "u")⟩⟩
     ⟨"k3", Option.none, .fin 1, .unbounded, Option.none, "a3", false, .noneV⟩
     ("v") (1, 1, "u") [("v1", (1, 1, "u")), ("v2", (2, 1, "u"))]
     rfl rfl (by decide) rfl rfl rfl⟩

/-- C6: `getdefault` fails with a schema error whenever the key is not
finished; after finishing it returns the empty list for a repeatable key
with no defaults (never Python `None`), `None` for a singular key with no
default, and the stored value(s) otherwise. -/
theorem keyGetdefaultSpec (k1 k2 k3 k4 : KeyInfo)
    (h1 : k1.finished = false)
    (h2 : k2.finished = true) (h2' : k2.default = .noneV)
    (h2'' : gtOne k2.maxOccurs = true)
    (h3 : k3.finished = true) (h3' : k3.default = .noneV)
    (h3'' : gtOne k3.maxOccurs = false)
    (h4 : k4.finished = true) (h4' : k4.default ≠ .noneV) :
    KeyInfo.getdefault k1 = .error (.schemaError
      ("cannot get default value of key before KeyInfo has been completely initialized")) ∧
    KeyInfo.getdefault k2 = .ok (.multi []) ∧
    KeyInfo.getdefault k3 = .ok .noneV ∧
    KeyInfo.getdefault k4 = .ok k4.default := by
  refine ⟨by simp [KeyInfo.getdefault, h1], by simp [KeyInfo.getdefault, h2, h2', h2''],
    ?_, by simp [KeyInfo.getdefault, h4, h4']⟩
  have : KeyInfo.getdefault k3 = .ok k3.default := by
    simp [KeyInfo.getdefault, h3, h3'']
  rw [this, h3']

/-- Witness for C6: four concrete keys, one per case of the claim. -/
theorem keyGetdefaultSpecWitness :
    ((⟨"k1", Option.none, .fin 1, .fin 1, Option.none, "a1", false, .noneV⟩ :
        KeyInfo).finished = false ∧
     (⟨"k2", Option.none, .fin 1, .unbounded, Option.none, "a2", true, .noneV⟩ :
        KeyInfo).finished = true ∧
     gtOne (⟨"k2", Option.none, .fin 1, .unbounded, Option.none, "a2", true,
        .noneV⟩ : KeyInfo).maxOccurs = true ∧
     (⟨"k3", Option.none, .fin 1, .fin 1, Option.none, "a3", true, .noneV⟩ :
        KeyInfo).finished = true ∧
     (⟨"k4", Option.none, .fin 1, .fin 1, Option.none, "a4", true,
        .single ⟨"w", (1, 1, "u")⟩⟩ : KeyInfo).default ≠ .noneV) ∧
    (KeyInfo.getdefault ⟨"k1", Option.none, .fin 1, .fin 1, Option.none, "a1", false, .noneV⟩ =
      .error (.schemaError
        ("cannot get default value of key before KeyInfo has been completely initialized")) ∧
     KeyInfo.getdefault ⟨"k2", Option.none, .fin 1, .unbounded, Option.none, "a2", true, .noneV⟩ =
      .ok (.multi []) ∧
     KeyInfo.getdefault ⟨"k3", Option.none, .fin 1, .fin 1, Option.none, "a3", true, .noneV⟩ =
      .ok .noneV ∧
     KeyInfo.getdefault ⟨"k4", Option.none, .fin 1, .fin 1, Option.none, "a4", true,
        .single ⟨"w", (1, 1, "u")⟩⟩ =
      .ok (⟨"k4", Option.none, .fin 1, .fin 1, Option.none, "a4", true,
        .single ⟨"w", (1, 1, "u")⟩⟩ : KeyInfo).default) :=
  ⟨⟨rfl, rfl, rfl, rfl, by decide⟩,
   keyGetdefaultSpec
     ⟨"k1", Option.none, .fin 1, .fin 1, Option.none, "a1", false, .noneV⟩
     ⟨"k2", Option.none, .fin 1, .unbounded, Option.none, "a2", true, .noneV⟩
     ⟨"k3", Option.none, .fin 1, .fin 1, Option.none, "a3", true, .noneV⟩
     ⟨"k4", Option.none, .fin 1, .fin 1, Option.none, "a4", true, .single ⟨"w", (1, 1, "u")⟩⟩
     rfl rfl rfl rfl rfl rfl rfl rfl (by decide)⟩

lemma gsiStep_none_iff (t n : String) (i : Nat) (c : String × Child) :
    gsiStep t n i c = Option.none ↔ childContinues t n c = true := by
  obtain ⟨key, info⟩ := c
  unfold childContinues gsiStep Option.isNone
  by_cases hk : key ≠ ""
  · by_cases hn : key = n
    · have hn3 : n ≠ "" := hn ▸ hk
      simp [hk, hn, hn3]
    · simp [hk, hn]
  · cases info with
    | key k => simp [hk]
    | sec s =>
      by_cases hr : refName s.sectiontype = t
      · simp [hk, hr]
      · cases hst : s.sectiontype with
        | concrete cn =>
          rw [hst] at hr
          simp [hk, hr, hst]
        | group g =>
          rw [hst] at hr
          by_cases hg : g.name = t
          · simp [hk, hr, hst, hg]
          · cases hsub : g.getsubtype t with
            | ok v => simp [hk, hr, hst, hg, hsub]
            | error e =>
              by_cases hcc : catchConfig e = true <;>
                simp [hk, hr, hst, hg, hsub, hcc]

lemma gsiAux_skip (t n : String) :
    ∀ (pre l : List (String × Child)) (idx : Nat),
      (∀ c ∈ pre, childContinues t n c = true) →
      gsiAux t n idx (pre ++ l) = gsiAux t n (idx + pre.length) l := by
  intro pre
  induction pre with
  | nil => intro l idx _; simp
  | cons c cs ih =>
    intro l idx h
    have hc : gsiStep t n idx c = Option.none :=
      (gsiStep_none_iff t n idx c).mpr (h c (by simp))
    simp only [List.cons_append, gsiAux, hc, List.append_eq]
    rw [ih l (idx + 1) (fun c' hc' => h c' (by simp [hc']))]
    congr 1
    simp [List.length_cons]
    omega

/-- C2 amended: for a call `resolveChild(instanceType, instanceName)` with
a non-empty instance name, where a child is declared under exactly that
name and the scan actually reaches it — every earlier child neither
matches nor raises (each either bears a different non-empty name, or is
an unnamed slot whose type neither equals `instanceType` nor is a group
containing it) — the call behaves as the claim states: it fails "name
already in use for key" when that child is a key; it fails "section type
not allowed for this name" when the child's type is a group lacking
`instanceType`; it fails when the resolved concrete type's name differs
from `instanceType`; and otherwise it returns that child's index.
Without the reachability proviso the claim is false
(`getsectionindexNamedPreempted`): an earlier unnamed slot can win. -/
theorem resolveChildNamedSpec (st : SectionTypeData) (pre rest : List (String × Child))
    (info : Child) (t n : String)
    (hn : n ≠ "")
    (hch : st.children = pre ++ (n, info) :: rest)
    (hpre : ∀ c ∈ pre, childContinues t n c = true) :
    (∀ k, info = .key k →
      st.getsectionindex t n = .error (.configurationError
        ("section name " ++ n ++ " already in use for key"))) ∧
    (∀ s g, info = .sec s → s.sectiontype = .group g →
      lookupA g.subtypes t = Option.none →
      st.getsectionindex t n = .error (.configurationError
        ("section type " ++ pyrepr t ++ " not allowed for name " ++ pyrepr n))) ∧
    (∀ s g m, info = .sec s → s.sectiontype = .group g →
      lookupA g.subtypes t = some m → m ≠ t →
      st.getsectionindex t n = .error (.configurationError
        ("name " ++ pyrepr n ++ " must be used for a " ++ pyrepr m ++ " section"))) ∧
    (∀ s g m, info = .sec s → s.sectiontype = .group g →
      lookupA g.subtypes t = some m → m = t →
      st.getsectionindex t n = .ok pre.length) ∧
    (∀ s c, info = .sec s → s.sectiontype = .concrete c → c ≠ t →
      st.getsectionindex t n = .error (.configurationError
        ("name " ++ pyrepr n ++ " must be used for a " ++ pyrepr c ++ " section"))) ∧
    (∀ s c, info = .sec s → s.sectiontype = .concrete c → c = t →
      st.getsectionindex t n = .ok pre.length) := by
  have hmain : st.getsectionindex t n =
      match gsiStep t n pre.length (n, info) with
      | some r => r
      | Option.none => gsiAux t n (pre.length + 1) rest := by
    unfold SectionTypeData.getsectionindex
    rw [hch, gsiAux_skip t n pre ((n, info) :: rest) 0 hpre]
    simp [gsiAux]
  refine ⟨?_, ?_, ?_, ?_, ?_, ?_⟩
  · rintro k rfl
    rw [hmain]
    simp [gsiStep, hn]
  · rintro s g rfl hst hlook
    rw [hmain]
    simp [gsiStep, hn, hst, GroupType.getsubtype, hlook, catchConfig]
  · rintro s g m rfl hst hlook hm
    rw [hmain]
    simp [gsiStep, hn, hst, GroupType.getsubtype, hlook, hm]
  · rintro s g m rfl hst hlook rfl
    rw [hmain]
    simp [gsiStep, hn, hst, GroupType.getsubtype, hlook]
  · rintro s c rfl hst hc
    rw [hmain]
    simp [gsiStep, hn, hst, hc]
  · rintro s c rfl hst rfl
    rw [hmain]
    simp [gsiStep, hn, hst]

/-- The earlier children used by the witness of the amended C2: one
unnamed `*` slot of a non-matching concrete type. -/
def c2preW : List (String × Child) :=
  [("", .sec ⟨"*", .concrete ("u"), .fin 0, .unbounded, Option.none, "h0", Option.none⟩)]

/-- The named section child used by the witness of the amended C2. -/
def c2secW : SecData :=
  ⟨"x", .concrete ("t"), .fin 0, .fin 1, Option.none, "hx", Option.none⟩

/-- The section type used by the witness of the amended C2. -/
def c2stW : SectionTypeData := stOfChildren (c2preW ++ ("x", .sec c2secW) :: [])

/-- Witness for the amended C2: the scan skips the unnamed slot of type
"u" and resolves the named child "x" of concrete type "t" at index 1. -/
theorem resolveChildNamedSpecWitness :
    (("x" : String) ≠ "" ∧ c2stW.children = c2preW ++ ("x", .sec c2secW) :: [] ∧
      (∀ c ∈ c2preW, childContinues ("t") ("x") c = true)) ∧
    (∀ s c, Child.sec c2secW = .sec s → s.sectiontype = .concrete c → c = "t" →
      c2stW.getsectionindex ("t") ("x") = .ok c2preW.length) :=
  ⟨⟨by decide, rfl, by decide⟩,
   (resolveChildNamedSpec c2stW c2preW [] (.sec c2secW) ("t") ("x")
     (by decide) rfl (by decide)).2.2.2.2.2⟩

/-- A lookup map indexes exactly the children whose non-empty name (under
the projection `f`) is the looked-up key. -/
def MapsTo (m : List (String × Nat)) (cs : List (String × Child))
    (f : String × Child → String) : Prop :=
  ∀ k i, lookupA m k = some i ↔ (k ≠ "" ∧ ∃ c, cs.get? i = some c ∧ f c = k)

/-- The coordination invariant of a `SectionType`: `_keymap` indexes the
children by declared name and `_attrmap` by attribute name. -/
def InvST (st : SectionTypeData) : Prop :=
  MapsTo st.keymap st.children Prod.fst ∧
  MapsTo st.attrmap st.children (fun c => childAttr c.2)

lemma mapsTo_nil (f : String × Child → String) : MapsTo [] [] f := by
  intro k i
  simp [lookupA]

lemma get?_of_append {cs : List (String × Child)} {x c : String × Child} {i : Nat}
    (h : cs.get? i = some c) : (cs ++ [x]).get? i = some c := by
  have hlt : i < cs.length := by
    by_contra hge
    rw [List.get?_len_le (Nat.le_of_not_lt hge)] at h
    exact Option.noConfusion h
  rw [List.get?_append hlt]
  exact h

lemma get?_append_cases {cs : List (String × Child)} {x c : String × Child} {i : Nat}
    (h : (cs ++ [x]).get? i = some c) :
    cs.get? i = some c ∨ (i = cs.length ∧ c = x) := by
  by_cases hlt : i < cs.length
  · left
    rw [List.get?_append hlt] at h
    exact h
  · right
    have hle : i < cs.length + 1 := by
      by_contra hge
      rw [List.get?_len_le (by simpa using Nat.le_of_not_lt hge)] at h
      exact Option.noConfusion h
    have hi : i = cs.length := by omega
    subst hi
    rw [List.get?_concat_length] at h
    exact ⟨rfl, (Option.some.injEq _ _ ▸ h).symm⟩

lemma MapsTo.extend {m : List (String × Nat)} {cs : List (String × Child)}
    {f : String × Child → String} (h : MapsTo m cs f) (x : String × Child)
    (hk : f x ≠ "") (habs : lookupA m (f x) = Option.none) :
    MapsTo ((f x, cs.length) :: m) (cs ++ [x]) f := by
  intro k i
  constructor
  · intro hl
    by_cases he : f x = k
    · rw [show lookupA ((f x, cs.length) :: m) k = some cs.length from by
        simp [lookupA, he]] at hl
      have hi : i = cs.length := by
        injection hl with h'
        omega
      subst hi
      exact ⟨he ▸ hk, x, List.get?_concat_length cs x, he⟩
    · rw [show lookupA ((f x, cs.length) :: m) k = lookupA m k from by
        simp [lookupA, he]] at hl
      obtain ⟨hk', c, hget, hf⟩ := (h k i).mp hl
      exact ⟨hk', c, get?_of_append hget, hf⟩
  · rintro ⟨hk', c, hget, hf⟩
    rcases get?_append_cases hget with hin | ⟨hi, hc⟩
    · have hl : lookupA m k = some i := (h k i).mpr ⟨hk', c, hin, hf⟩
      have he : f x ≠ k := by
        intro he
        rw [he, hl] at habs
        exact Option.noConfusion habs
      simp [lookupA, he, hl]
    · subst hi
      subst hc
      simp [lookupA, hf]

lemma MapsTo.extendSkip {m : List (String × Nat)} {cs : List (String × Child)}
    {f : String × Child → String} (h : MapsTo m cs f) (x : String × Child)
    (hk : f x = "") : MapsTo m (cs ++ [x]) f := by
  intro k i
  rw [h k i]
  constructor
  · rintro ⟨hk', c, hget, hf⟩
    exact ⟨hk', c, get?_of_append hget, hf⟩
  · rintro ⟨hk', c, hget, hf⟩
    rcases get?_append_cases hget with hin | ⟨hi, hc⟩
    · exact ⟨hk', c, hin, hf⟩
    · exfalso
      apply hk'
      rw [← hf, hc, hk]

lemma add_child_ok_inv {st st' : SectionTypeData} {key : String} {info : Child}
    (h : InvST st) (hadd : st.add_child key info = .ok st') :
    InvST st' ∧ st'.children = st.children ++ [(key, info)] := by
  obtain ⟨hkm, ham⟩ := h
  by_cases hk : key = "" <;> by_cases ha : childAttr info = ""
  · exfalso
    simp [SectionTypeData.add_child, hk, ha] at hadd
  · subst hk
    rcases hla : lookupA st.attrmap (childAttr info) with _ | va
    · have hst : st' =
          { st with
            children := st.children ++ [("", info)],
            attrmap := (childAttr info, st.children.length) :: st.attrmap } := by
        simp [SectionTypeData.add_child, ha, hla] at hadd
        exact hadd.symm
      subst hst
      refine ⟨⟨?_, ?_⟩, rfl⟩
      · simpa using hkm.extendSkip ("", info) rfl
      · simpa using ham.extend ("", info) ha hla
    · exfalso
      simp [SectionTypeData.add_child, ha, hla] at hadd
  · rcases hlk : lookupA st.keymap key with _ | vk
    · have hst : st' =
          { st with
            children := st.children ++ [(key, info)],
            keymap := (key, st.children.length) :: st.keymap } := by
        simp [SectionTypeData.add_child, hk, ha, hlk] at hadd
        exact hadd.symm
      subst hst
      refine ⟨⟨?_, ?_⟩, rfl⟩
      · simpa using hkm.extend (key, info) hk hlk
      · simpa using ham.extendSkip (key, info) ha
    · exfalso
      simp [SectionTypeData.add_child, hk, ha, hlk] at hadd
  · rcases hlk : lookupA st.keymap key with _ | vk
    · rcases hla : lookupA st.attrmap (childAttr info) with _ | va
      · have hst : st' =
            { st with
              children := st.children ++ [(key, info)],
              attrmap := (childAttr info, st.children.length) :: st.attrmap,
              keymap := (key, st.children.length) :: st.keymap } := by
          simp [SectionTypeData.add_child, hk, ha, hlk, hla] at hadd
          exact hadd.symm
        subst hst
        refine ⟨⟨?_, ?_⟩, rfl⟩
        · simpa using hkm.extend (key, info) hk hlk
        · simpa using ham.extend (key, info) ha hla
      · exfalso
        simp [SectionTypeData.add_child, hk, ha, hlk, hla] at hadd
    · exfalso
      simp [SectionTypeData.add_child, hk, ha, hlk] at hadd

lemma applyOp_ok {st st' : SectionTypeData} {op : AddOp} (h : InvST st)
    (happ : applyOp st op = .ok st') :
    InvST st' ∧ st'.children = st.children ++ [opPair op] := by
  cases op with
  | key k => exact add_child_ok_inv h happ
  | sect n s =>
    simp only [applyOp, SectionTypeData.addsection] at happ
    split_ifs at happ with h1
    exact add_child_ok_inv h happ

lemma applyOps_ok : ∀ (ops : List AddOp) (st st' : SectionTypeData), InvST st →
    applyOps st ops = .ok st' →
    InvST st' ∧ st'.children = st.children ++ ops.map opPair := by
  intro ops
  induction ops with
  | nil =>
    intro st st' h happ
    injection happ with h'
    subst h'
    simp [h]
  | cons op ops ih =>
    intro st st' h happ
    rcases h1 : applyOp st op with e | st1
    · simp only [applyOps, h1] at happ
      exact absurd happ (by simp)
    · simp only [applyOps, h1] at happ
      obtain ⟨hinv1, hch1⟩ := applyOp_ok h h1
      obtain ⟨hinv', hch'⟩ := ih st1 st' hinv1 happ
      exact ⟨hinv', by simp [hch', hch1, List.append_assoc]⟩

/-- C7: after any successful sequence of `addkey`/`addsection` operations
starting from a fresh `SectionType`, the children list records exactly
the operations in declaration order; no two children share a non-empty
declared name and no two share a non-empty attribute name; `getinfo`
returns exactly the descriptor added under a name; and an insertion that
would reuse a non-empty name (or attribute) fails with the schema
error. -/
theorem sectionTypeChildIndexing (ops : List AddOp) (st : SectionTypeData)
    (h : applyOps (mkSectionType ("") Option.none Option.none Option.none) ops = .ok st) :
    st.children = ops.map opPair ∧
    (∀ i j ki ci kj cj, st.children.get? i = some (ki, ci) →
      st.children.get? j = some (kj, cj) → i ≠ j → ki = kj → ki = "") ∧
    (∀ i j ki ci kj cj, st.children.get? i = some (ki, ci) →
      st.children.get? j = some (kj, cj) → i ≠ j → childAttr ci = childAttr cj →
      childAttr ci = "") ∧
    (∀ i k info, st.children.get? i = some (k, info) → k ≠ "" →
      st.getinfo k = .ok info) ∧
    (∀ i c (info' : Child), st.children.get? i = some c → c.1 ≠ "" →
      st.add_child c.1 info' =
        .error (.schemaError ("child name " ++ c.1 ++ " already used"))) ∧
    (∀ i c (info' : Child), st.children.get? i = some c → childAttr c.2 ≠ "" →
      childAttr info' = childAttr c.2 →
      st.add_child ("") info' =
        .error (.schemaError
          ("child attribute name " ++ childAttr c.2 ++ " already used"))) := by
  have h0 : InvST (mkSectionType ("") Option.none Option.none Option.none) :=
    ⟨mapsTo_nil _, mapsTo_nil _⟩
  obtain ⟨⟨hkm, ham⟩, hch⟩ := applyOps_ok ops _ st h0 h
  refine ⟨by simpa using hch, ?_, ?_, ?_, ?_, ?_⟩
  · intro i j ki ci kj cj hi hj hij hk
    by_contra hne
    have li : lookupA st.keymap ki = some i := (hkm ki i).mpr ⟨hne, (ki, ci), hi, rfl⟩
    have lj : lookupA st.keymap ki = some j := (hkm ki j).mpr ⟨hne, (kj, cj), hj, hk.symm⟩
    rw [li] at lj
    injection lj with h'
    exact hij h'
  · intro i j ki ci kj cj hi hj hij ha
    by_contra hne
    have li : lookupA st.attrmap (childAttr ci) = some i :=
      (ham (childAttr ci) i).mpr ⟨hne, (ki, ci), hi, rfl⟩
    have lj : lookupA st.attrmap (childAttr ci) = some j :=
      (ham (childAttr ci) j).mpr ⟨hne, (kj, cj), hj, ha.symm⟩
    rw [li] at lj
    injection lj with h'
    exact hij h'
  · intro i k info hget hk
    have hl : lookupA st.keymap k = some i := (hkm k i).mpr ⟨hk, (k, info), hget, rfl⟩
    unfold SectionTypeData.getinfo
    rw [List.get?_eq_getElem?] at hget
    simp [hk, hl, hget]
  · intro i c info' hget hk
    have hl : lookupA st.keymap c.1 = some i :=
      (hkm c.1 i).mpr ⟨hk, c, by simpa using hget, rfl⟩
    unfold SectionTypeData.add_child
    simp [hk, hl]
  · intro i c info' hget ha hattr
    have hl : lookupA st.attrmap (childAttr c.2) = some i :=
      (ham (childAttr c.2) i).mpr ⟨ha, c, by simpa using hget, rfl⟩
    unfold SectionTypeData.add_child
    simp [hattr, ha, hl]

/-- The operation sequence used by the C7 witness: a key "k", a named
section "s", and an unnamed section slot. -/
def c7opsW : List AddOp :=
  [.key ⟨"k", Option.none, .fin 1, .fin 1, Option.none, "ka", false, .noneV⟩,
   .sect ("s") ⟨"s", .concrete ("t"), .fin 0, .fin 1, Option.none, "sb", Option.none⟩,
   .sect ("") ⟨"*", .concrete ("t"), .fin 0, .unbounded, Option.none, "sc", Option.none⟩]

/-- The section type built by the C7 witness operations. -/
def c7stW : SectionTypeData :=
  ⟨"", Option.none, Option.none, Option.none, Option.none,
   [("k", .key ⟨"k", Option.none, .fin 1, .fin 1, Option.none, "ka", false, .noneV⟩),
    ("s", .sec ⟨"s", .concrete ("t"), .fin 0, .fin 1, Option.none, "sb", Option.none⟩),
    ("", .sec ⟨"*", .concrete ("t"), .fin 0, .unbounded, Option.none, "sc", Option.none⟩)],
   [("sc", 2), ("sb", 1), ("ka", 0)],
   [("s", 1), ("k", 0)]⟩

/-- Witness for C7 on a concrete three-child build. -/
theorem sectionTypeChildIndexingWitness :
    applyOps (mkSectionType ("") Option.none Option.none Option.none) c7opsW = .ok c7stW ∧
    (c7stW.children = c7opsW.map opPair ∧
    (∀ i j ki ci kj cj, c7stW.children.get? i = some (ki, ci) →
      c7stW.children.get? j = some (kj, cj) → i ≠ j → ki = kj → ki = "") ∧
    (∀ i j ki ci kj cj, c7stW.children.get? i = some (ki, ci) →
      c7stW.children.get? j = some (kj, cj) → i ≠ j → childAttr ci = childAttr cj →
      childAttr ci = "") ∧
    (∀ i k info, c7stW.children.get? i = some (k, info) → k ≠ "" →
      c7stW.getinfo k = .ok info) ∧
    (∀ i c (info' : Child), c7stW.children.get? i = some c → c.1 ≠ "" →
      c7stW.add_child c.1 info' =
        .error (.schemaError ("child name " ++ c.1 ++ " already used"))) ∧
    (∀ i c (info' : Child), c7stW.children.get? i = some c → childAttr c.2 ≠ "" →
      childAttr info' = childAttr c.2 →
      c7stW.add_child ("") info' =
        .error (.schemaError
          ("child attribute name " ++ childAttr c.2 ++ " already used")))) :=
  ⟨rfl, sectionTypeChildIndexing c7opsW c7stW rfl⟩

lemma grtStep_subset : ∀ (cs : List (String × Child)) (d : List String) (x : String),
    x ∈ d → x ∈ (grtStep d cs).1 := by
  intro cs
  induction cs with
  | nil =>
    intro d x hx
    simpa [grtStep] using hx
  | cons c cs ih =>
    intro d x hx
    obtain ⟨k, ci⟩ := c
    cases ci with
    | key kk => simpa [grtStep] using ih d x hx
    | sec s =>
      by_cases hm : refName s.sectiontype ∈ d
      · simpa [grtStep, hm] using ih d x hx
      · simp only [grtStep, hm, if_false]
        exact ih _ x (by simp [hx])

lemma grtStep_nodup : ∀ (cs : List (String × Child)) (d : List String),
    d.Nodup → (grtStep d cs).1.Nodup := by
  intro cs
  induction cs with
  | nil =>
    intro d hd
    simpa [grtStep] using hd
  | cons c cs ih =>
    intro d hd
    obtain ⟨k, ci⟩ := c
    cases ci with
    | key kk => simpa [grtStep] using ih d hd
    | sec s =>
      by_cases hm : refName s.sectiontype ∈ d
      · simpa [grtStep, hm] using ih d hd
      · simp only [grtStep, hm, if_false]
        exact ih _ (by simp [hm, hd])

lemma grtLoop_subset : ∀ (fuel : Nat) (heap : List (String × SectionTypeData))
    (d : List String) (stack : List SecTypeRef) (req : List String),
    grtLoop heap fuel d stack = .ok req → ∀ x ∈ d, x ∈ req := by
  intro fuel
  induction fuel with
  | zero =>
    intro heap d stack req h
    exact absurd h (by simp [grtLoop])
  | succ fuel ih =>
    intro heap d stack req h x hx
    cases stack with
    | nil =>
      simp only [grtLoop] at h
      injection h with h'
      subst h'
      exact hx
    | cons r stack =>
      cases r with
      | group g => exact absurd h (by simp [grtLoop])
      | concrete n =>
        rcases hl : lookupA heap n with _ | stData
        · rw [show grtLoop heap (fuel + 1) d (SecTypeRef.concrete n :: stack) =
            .error .modelDanglingRef from by simp [grtLoop, hl]] at h
          exact absurd h (by simp)
        · rw [show grtLoop heap (fuel + 1) d (SecTypeRef.concrete n :: stack) =
            grtLoop heap fuel (grtStep d stData.children).1
              ((grtStep d stData.children).2.reverse ++ stack) from by
              simp [grtLoop, hl]] at h
          exact ih heap _ _ req h x (grtStep_subset _ _ _ hx)

lemma grtLoop_nodup : ∀ (fuel : Nat) (heap : List (String × SectionTypeData))
    (d : List String) (stack : List SecTypeRef) (req : List String),
    d.Nodup → grtLoop heap fuel d stack = .ok req → req.Nodup := by
  intro fuel
  induction fuel with
  | zero =>
    intro heap d stack req _ h
    exact absurd h (by simp [grtLoop])
  | succ fuel ih =>
    intro heap d stack req hd h
    cases stack with
    | nil =>
      simp only [grtLoop] at h
      injection h with h'
      subst h'
      exact hd
    | cons r stack =>
      cases r with
      | group g => exact absurd h (by simp [grtLoop])
      | concrete n =>
        rcases hl : lookupA heap n with _ | stData
        · rw [show grtLoop heap (fuel + 1) d (SecTypeRef.concrete n :: stack) =
            .error .modelDanglingRef from by simp [grtLoop, hl]] at h
          exact absurd h (by simp)
        · rw [show grtLoop heap (fuel + 1) d (SecTypeRef.concrete n :: stack) =
            grtLoop heap fuel (grtStep d stData.children).1
              ((grtStep d stData.children).2.reverse ++ stack) from by
              simp [grtLoop, hl]] at h
          exact ih heap _ _ req (grtStep_nodup _ _ hd) h

lemma getrequiredtypes_nodup {heap : List (String × SectionTypeData)}
    {self : SectionTypeData} {req : List String}
    (h : getrequiredtypes heap self = .ok req) : req.Nodup := by
  unfold getrequiredtypes at h
  refine grtLoop_nodup _ _ _ _ _ (grtStep_nodup _ _ ?_) h
  by_cases hn : self.name = "" <;> simp [hn]

lemma getrequiredtypes_self_mem {heap : List (String × SectionTypeData)}
    {self : SectionTypeData} {req : List String}
    (h : getrequiredtypes heap self = .ok req) (hn : self.name ≠ "") :
    self.name ∈ req := by
  unfold getrequiredtypes at h
  rw [if_pos hn] at h
  exact grtLoop_subset _ _ _ _ _ h self.name (grtStep_subset _ _ _ (by simp))

lemma removeOne_eq_erase : ∀ (l : List String) (a : String), a ∈ l →
    removeOne l a = .ok (l.erase a) := by
  intro l
  induction l with
  | nil =>
    intro a ha
    exact absurd ha (by simp)
  | cons x xs ih =>
    intro a ha
    by_cases hx : x = a
    · subst hx
      simp [removeOne, List.erase_cons]
    · have ha' : a ∈ xs := by
        rcases List.mem_cons.mp ha with h | h
        · exact absurd h.symm hx
        · exact h
      simp [removeOne, hx, ih a ha', List.erase_cons]

lemma removeAll_filter : ∀ (req all : List String), all.Nodup → req.Nodup →
    (∀ x ∈ req, x ∈ all) →
    removeAll all req = .ok (all.filter (fun x => x ∉ req)) := by
  intro req
  induction req with
  | nil =>
    intro all _ _ _
    simp [removeAll, List.filter_eq_self]
  | cons r rs ih =>
    intro all hall hreq hsub
    have hr : r ∈ all := hsub r (by simp)
    have hnr : r ∉ rs := (List.nodup_cons.mp hreq).1
    have hrs : rs.Nodup := (List.nodup_cons.mp hreq).2
    rw [show removeAll all (r :: rs) = removeAll (all.erase r) rs from by
      simp [removeAll, removeOne_eq_erase all r hr]]
    rw [ih (all.erase r) (hall.erase r) hrs
      (fun x hx => (List.mem_erase_of_ne (by rintro rfl; exact hnr hx)).mpr
        (hsub x (by simp [hx])))]
    congr 1
    rw [hall.erase_eq_filter r, List.filter_filter]
    apply List.filter_congr
    intro x hx
    by_cases hxr : x = r <;> by_cases hxs : x ∈ rs <;> simp [hxr, hxs]

/-- C4 amended: provided every type name in `getRequiredTypes()` is a
registered type name (as holds for loader-built schemas, whose root name
is empty), `getUnusedTypes()` returns exactly the set difference between
the registered type names and the required ones; the result never
contains the root's non-empty name, because `getRequiredTypes()` already
contains it.  Without the proviso the claim is false: the removal loop
raises an uncaught `ValueError` (`getunusedtypesRootCrash`), e.g. when
the root's name is non-empty but not registered. -/
theorem getunusedtypesSpec (heap : List (String × SectionTypeData)) (s : SchemaST)
    (req : List String)
    (hreq : getrequiredtypes heap s.core = .ok req)
    (hsub : ∀ x ∈ req, x ∈ s.registered)
    (hnd : s.registered.Nodup) :
    getunusedtypes heap s = .ok (s.registered.filter (fun x => x ∉ req)) ∧
    (∀ x, (x ∈ s.registered.filter (fun x => x ∉ req)) ↔
      (x ∈ s.registered ∧ x ∉ req)) ∧
    (s.core.name ≠ "" → s.core.name ∉ s.registered.filter (fun x => x ∉ req)) := by
  have hnodup : req.Nodup := getrequiredtypes_nodup hreq
  have hrm := removeAll_filter req s.registered hnd hnodup hsub
  have hfil : ∀ x, x ∈ s.registered.filter (fun x => x ∉ req) ↔
      (x ∈ s.registered ∧ x ∉ req) := by
    intro x
    simp [List.mem_filter]
  have hroot : s.core.name ≠ "" → s.core.name ∉ s.registered.filter (fun x => x ∉ req) := by
    intro hn hmem
    exact ((hfil _).mp hmem).2 (getrequiredtypes_self_mem hreq hn)
  refine ⟨?_, hfil, hroot⟩
  unfold getunusedtypes
  simp only [hreq, hrm]
  by_cases hn : s.core.name = ""
  · rw [if_neg (fun hcond => hcond.1 hn)]
  · rw [if_neg (fun hcond => hroot hn hcond.2)]

/-- The schema of the C4 counterexample: a root named "s" with no
registered types. -/
def c4schemaC : SchemaST :=
  ⟨mkSectionType ("s") Option.none Option.none Option.none, [], Option.none, Option.none⟩

/-- C4 counterexample: on a schema whose root is named "s" with no
registered types, the claim demands the empty set difference, but
`getunusedtypes` crashes with an uncaught `ValueError`: the loop
`alltypes.remove(n)` runs over `getrequiredtypes` (which contains the
root's own name "s") on the list of registered names, which does not
contain it. -/
theorem getunusedtypesRootCrash :
    getunusedtypes [] c4schemaC = .error .valueError :=
  rfl

/-- The heap of the C4 witness: one registered type "t" with no
children. -/
def c4heapW : List (String × SectionTypeData) :=
  [("t", mkSectionType ("t") Option.none Option.none Option.none)]

/-- The schema of the C4 witness: an unnamed root with one unnamed slot
referencing "t"; "t" and "u" registered, so "u" is unused. -/
def c4schemaW : SchemaST :=
  ⟨{ mkSectionType ("") Option.none Option.none Option.none with
     children := [("", .sec ⟨"*", .concrete ("t"), .fin 0, .unbounded,
       Option.none, "h", Option.none⟩)] },
   ["t", "u"], Option.none, Option.none⟩

/-- Witness for the amended C4: the reachable type "t" is removed, the
unreferenced type "u" is reported unused. -/
theorem getunusedtypesSpecWitness :
    (getrequiredtypes c4heapW c4schemaW.core = .ok ["t"] ∧
     (∀ x ∈ (["t"] : List String), x ∈ c4schemaW.registered) ∧
     c4schemaW.registered.Nodup) ∧
    (getunusedtypes c4heapW c4schemaW =
      .ok (c4schemaW.registered.filter (fun x => x ∉ (["t"] : List String))) ∧
     (∀ x, (x ∈ c4schemaW.registered.filter (fun x => x ∉ (["t"] : List String))) ↔
       (x ∈ c4schemaW.registered ∧ x ∉ (["t"] : List String))) ∧
     (c4schemaW.core.name ≠ "" →
       c4schemaW.core.name ∉ c4schemaW.registered.filter
         (fun x => x ∉ (["t"] : List String)))) :=
  ⟨⟨rfl, by decide, by decide⟩,
   getunusedtypesSpec c4heapW c4schemaW ["t"] rfl (by decide) (by decide)⟩

end ZConfigInfo
